import Mathlib

/-!
Verification development for the slot-discovery engine of the
chili-piper-scraper repository (src/api/get-slots.py).

The scraping engine is embedded shallowly.  The Playwright page is
abstracted as a `PageDriver` record of observation and transition
functions over an abstract page-state type `σ` (element handles have
type `β`); the async methods of `ChiliPiperScraper` become pure Lean
functions over a driver, threading the page state explicitly and
recording the DOM interactions they perform in a trace of `Act`ions.
The unbounded Python recursion of `get_current_week_slots` is given a
fuel parameter; running out of fuel is reported as `none`.
-/

namespace ChiliPiper

/-- One entry of the dictionary produced by `get_current_day_info`
(src/api/get-slots.py lines 270-274): keys `day_name`, `date`, `slots`. -/
structure DayInfo where
  dayName : String
  date : String
  slots : List String
deriving Repr, DecidableEq

/-- What `get_current_day_info` reads off the selected-day DOM subtree
(lines 222-244): the day name from the aria-label, the day number from
the first span, the month from the second span, and the slot labels from
the `calendar-slot` buttons.  `none` models a missing selected-day or
day-text element (lines 223-231). -/
structure SelectedDay where
  dayName : String
  dayNumber : String
  month : String
  slots : List String
deriving Repr, DecidableEq

/-- One element of the flattened response list built in `handler.do_POST`
(lines 512-519): keys `date`, `time`, `gmt`. -/
structure SlotTriple where
  date : String
  time : String
  gmt : String
deriving Repr, DecidableEq

/-- DOM interactions performed by the engine, recorded as a trace. -/
inductive Act where
  | enumDays
  | settle
  | clickDay
  | clickNextWeek
  | clickPrevWeek
  | clickMonthYear
  | clickNextMonth
deriving Repr, DecidableEq

/-- The Python dict `all_slots` keyed by `day_info['date']`, as an
insertion-ordered association list (Python dicts preserve insertion
order; lines 150, 167-172). -/
abbrev Aggregate := List (String × DayInfo)

/-- The automation capabilities the engine consumes, abstracted from the
Playwright page: element queries return presence/enabled observations of
the current page state, clicks and waits are state transitions.
`nextWeekBtn s = none` means the `calendar-arrows-button-next` element is
absent, `some b` that it is present with enabled-state `b`; likewise for
the other optional controls.  `nextMonthBtn` is the query for
`calendar-arrows-button-next` issued after the month/year element was
clicked.  The driver is non-faulting: the per-element try/except blocks
of the source never fire in this model. -/
structure PageDriver (σ β : Type) where
  dayButtons : σ → List β
  isEnabled : σ → β → Bool
  clickDay : σ → β → σ
  nextWeekBtn : σ → Option Bool
  prevWeekBtn : σ → Option Bool
  monthYearEl : σ → Bool
  nextMonthBtn : σ → Option Bool
  clickNextWeek : σ → σ
  clickPrevWeek : σ → σ
  clickMonthYear : σ → σ
  clickNextMonth : σ → σ
  selectedDay : σ → Option SelectedDay
  wait : σ → σ

variable {σ β : Type}

/-- Embedding of `get_current_day_info` (lines 217-278).  The element
reads are folded into `PageDriver.selectedDay`.  The date string is
built at line 246-248 as month, day number and the CURRENT year
(`datetime.now().year`, the `nowYear` argument) - the page is never
asked which year it displays. -/
def getCurrentDayInfo (d : PageDriver σ β) (s : σ) (nowYear : Nat) : Option DayInfo :=
  match d.selectedDay s with
  | none => none
  | some sd =>
      some { dayName := sd.dayName,
             date := sd.month ++ " " ++ sd.dayNumber ++ ", " ++ toString nowYear,
             slots := sd.slots }

/-- Embedding of `navigate_to_next_week` (lines 405-447): click the
next-week arrow if present and enabled (then wait, line 417); otherwise
click the month/year element if present (line 429-433) and, if the
next-month arrow is then present and enabled, click it (lines 436-441);
otherwise report failure.  Returns (success, new state, action trace). -/
def navigateToNextWeek (d : PageDriver σ β) (s : σ) : Bool × σ × List Act :=
  match d.nextWeekBtn s with
  | some true =>
      (true, d.wait (d.clickNextWeek s), [Act.clickNextWeek, Act.settle])
  | _ =>
      if d.monthYearEl s then
        let s1 := d.wait (d.clickMonthYear s)
        match d.nextMonthBtn s1 with
        | some true =>
            (true, d.wait (d.clickNextMonth s1),
             [Act.clickMonthYear, Act.settle, Act.clickNextMonth, Act.settle])
        | _ => (false, s1, [Act.clickMonthYear, Act.settle])
      else (false, s, [])

/-- Outcome of the zero-enabled-buttons recovery code of
`get_current_week_slots` (lines 337-374): either a state from which the
whole collection restarts (`retryFrom`, the three
`return await self.get_current_week_slots(page)` sites at lines 344, 354
and 371), or giving up with an empty list (`giveUp`, line 374). -/
inductive ZeroPathOut (σ : Type) where
  | retryFrom (s : σ) (tr : List Act)
  | giveUp (s : σ) (tr : List Act)

/-- The recovery code run when the first enumeration found zero enabled
day buttons, entered after the settle wait and re-enumeration
(`stillZero` is whether the re-enumeration also found zero).  If still
zero it tries `navigate_to_next_week` (line 341), then the previous-week
arrow (lines 348-354).  In every remaining case - including the case
where the re-enumeration DID find enabled buttons, which the source
nevertheless discards - it falls through to the month/year picker block
(lines 357-371) and finally returns empty (line 374). -/
def zeroPath (d : PageDriver σ β) (s1 : σ) (stillZero : Bool) : ZeroPathOut σ :=
  let monthBlock := fun (s : σ) (tr : List Act) =>
    if d.monthYearEl s then
      let sA := d.wait (d.clickMonthYear s)
      match d.nextMonthBtn sA with
      | some true =>
          ZeroPathOut.retryFrom (d.wait (d.clickNextMonth sA))
            (tr ++ [Act.clickMonthYear, Act.settle, Act.clickNextMonth, Act.settle])
      | _ => ZeroPathOut.giveUp sA (tr ++ [Act.clickMonthYear, Act.settle])
    else ZeroPathOut.giveUp s tr
  if stillZero then
    let r := navigateToNextWeek d s1
    if r.1 then ZeroPathOut.retryFrom (d.wait r.2.1) (r.2.2 ++ [Act.settle])
    else
      match d.prevWeekBtn r.2.1 with
      | some true =>
          ZeroPathOut.retryFrom (d.wait (d.clickPrevWeek r.2.1))
            (r.2.2 ++ [Act.clickPrevWeek, Act.settle])
      | _ => monthBlock r.2.1 r.2.2
  else monthBlock s1 []

/-- Embedding of the per-day visiting loop of `get_current_week_slots`
(lines 376-396): for each enabled day button, click it, wait, read the
selected-day info, and keep the result only if it exists and its slot
list is non-empty (line 388). -/
def visitDays (d : PageDriver σ β) (y : Nat) : List β → σ → List DayInfo × σ × List Act
  | [], s => ([], s, [])
  | b :: rest, s =>
      let s1 := d.wait (d.clickDay s b)
      let info? := getCurrentDayInfo d s1 y
      let r := visitDays d y rest s1
      match info? with
      | some info =>
          if info.slots.isEmpty then (r.1, r.2.1, Act.clickDay :: Act.settle :: r.2.2)
          else (info :: r.1, r.2.1, Act.clickDay :: Act.settle :: r.2.2)
      | none => (r.1, r.2.1, Act.clickDay :: Act.settle :: r.2.2)

/-- Embedding of `get_current_week_slots` (lines 280-403).  Enumerate the
day buttons and their enabled states; if none is enabled, wait once and
re-check the same handles (lines 320-335), then run the recovery code
(`zeroPath`); the source recursion is modelled by the fuel parameter,
`none` meaning the recursion did not return within the given fuel.
Otherwise process the enabled buttons of the FIRST enumeration. -/
def getCurrentWeekSlots (d : PageDriver σ β) (y : Nat) :
    Nat → σ → Option (List DayInfo) × σ × List Act
  | 0, s => (none, s, [])
  | fuel + 1, s =>
      let hs := d.dayButtons s
      if (hs.filter (d.isEnabled s)).isEmpty then
        let s1 := d.wait s
        match zeroPath d s1 (hs.filter (d.isEnabled s1)).isEmpty with
        | ZeroPathOut.retryFrom s' tr =>
            let r := getCurrentWeekSlots d y fuel s'
            (r.1, r.2.1, [Act.enumDays, Act.settle, Act.enumDays] ++ tr ++ r.2.2)
        | ZeroPathOut.giveUp s' tr =>
            (some [], s', [Act.enumDays, Act.settle, Act.enumDays] ++ tr)
      else
        let r := visitDays d y (hs.filter (d.isEnabled s)) s
        (some r.1, r.2.1, Act.enumDays :: r.2.2)

/-- Embedding of the dedup insert of `get_available_slots`
(lines 166-176): insert the day keyed by its date only if that date is
not already present; a present date is skipped unchanged. -/
def hasDate (agg : Aggregate) (k : String) : Bool :=
  agg.any (fun p => p.1 == k)

/-- Insert-if-absent into the `all_slots` dict (lines 167-172). -/
def mergeDay (agg : Aggregate) (di : DayInfo) : Aggregate :=
  if hasDate agg di.date then agg else agg ++ [(di.date, di)]

/-- One navigation step of the `get_available_slots` loop
(lines 182-197): try `navigate_to_next_week`; on success wait (line 184);
otherwise query the previous-week arrow and click it if enabled
(lines 189-194); if both fail the loop breaks (line 197). -/
def advanceStep (d : PageDriver σ β) (s : σ) : Bool × σ × List Act :=
  let r := navigateToNextWeek d s
  if r.1 then (true, d.wait r.2.1, r.2.2 ++ [Act.settle])
  else
    match d.prevWeekBtn r.2.1 with
    | some true =>
        (true, d.wait (d.clickPrevWeek r.2.1), r.2.2 ++ [Act.clickPrevWeek, Act.settle])
    | _ => (false, r.2.1, r.2.2)

/-- Embedding of the `while week_count < max_weeks` loop of
`get_available_slots` (lines 157-201), structured on the number of weeks
still allowed (`max_weeks - week_count`): collect the current week,
merge every returned day into the aggregate, then attempt to advance;
stop when advancing fails in both directions or the ceiling is reached.
`none` propagates fuel exhaustion of the inner collection recursion. -/
def slotsLoop (d : PageDriver σ β) (y fuel : Nat) :
    Nat → Aggregate → σ → Option Aggregate × σ × List Act
  | 0, agg, s => (some agg, s, [])
  | w + 1, agg, s =>
      let c := getCurrentWeekSlots d y fuel s
      match c.1 with
      | none => (none, c.2.1, c.2.2)
      | some ws =>
          let agg1 := ws.foldl mergeDay agg
          let a := advanceStep d c.2.1
          if a.1 then
            let r := slotsLoop d y fuel w agg1 a.2.1
            (r.1, r.2.1, c.2.2 ++ a.2.2 ++ r.2.2)
          else (some agg1, a.2.1, c.2.2 ++ a.2.2)

/-- Embedding of `get_available_slots` (lines 143-215).  `max_weeks = 3`
(line 153).  The `days_to_check` argument is received but, apart from
log messages (lines 146, 155, 207-209), never used: the loop has no
early-stop test against it. -/
def getAvailableSlots (d : PageDriver σ β) (y fuel daysToCheck : Nat) (s : σ) :
    Option Aggregate × σ × List Act :=
  let _ := daysToCheck
  slotsLoop d y fuel 3 [] s

/-- The timezone label hardcoded at line 518 of `handler.do_POST`. -/
def gmtLabel : String := "GMT-05:00 America/Chicago (CDT)"

/-- Embedding of the flattening loop of `handler.do_POST`
(lines 512-519): one triple per slot of every stored day, each carrying
`gmtLabel`. -/
def flattenSlots (slots : Aggregate) : List SlotTriple :=
  slots.foldl
    (fun acc p => acc ++ p.2.slots.map (fun t => { date := p.1, time := t, gmt := gmtLabel }))
    []

/-- Classifier for week/month navigation clicks in a trace. -/
def isNavClick : Act → Bool
  | Act.clickNextWeek => true
  | Act.clickPrevWeek => true
  | Act.clickNextMonth => true
  | _ => false

/-- Number of week/month navigation clicks in a trace. -/
def countNav (tr : List Act) : Nat :=
  (tr.filter isNavClick).length

/-! ### Timeout wrapper (`fill_form_and_get_slots`, lines 20-34)

`fill_form_and_get_slots` runs `_scrape_slots` under
`asyncio.wait_for(..., timeout=45)`.  The possible outcomes of that
awaited call are: the inner coroutine completed and produced its slots
dict; the 45 s deadline elapsed, cancelling the inner task
(`asyncio.TimeoutError`) - the slots accumulated inside the cancelled
task at that moment, recorded here as `lostAgg`, are unreachable from
the handler; or the inner coroutine raised some other exception
(re-raised at line 114).  Both except branches return the empty dict
(lines 29-34). -/

/-- Outcome of awaiting `_scrape_slots` under the 45 s deadline. -/
inductive InnerOutcome where
  | done (slots : Aggregate)
  | timedOut (lostAgg : Aggregate)
  | failed
deriving Repr, DecidableEq

/-- Embedding of `fill_form_and_get_slots` (lines 20-34): pass a
completed result through; catch `asyncio.TimeoutError` and return the
empty dict (line 31); catch any other exception and return the empty
dict (line 34).  Total: no outcome is re-raised to the caller. -/
def fillFormAndGetSlots : InnerOutcome → Aggregate
  | InnerOutcome.done slots => slots
  | InnerOutcome.timedOut _ => []
  | InnerOutcome.failed => []

/-! ### Browser resource lifecycle (`_scrape_slots`, lines 36-114)

`_scrape_slots` opens `async with async_playwright() as p`, launches a
browser inside that scope (line 42), and calls `await browser.close()`
only on the straight-line success path (line 109).  On any exception or
cancellation after the launch, the explicit close is skipped and the
scope exit of the `async with` runs instead; stopping Playwright closes
every browser that was launched through it and is still connected. -/

/-- Where, if anywhere, the one run of `_scrape_slots` fails:
`launchFail` - the browser launch itself raises, so no browser is ever
acquired; `gotoFail` / `formFail` - an uncaught exception after launch
(navigation, `fill_form`; re-raised at line 114); `deadline` - the 45 s
deadline cancels the task at a suspension point inside the scope;
`noFail` - the straight-line path through `browser.close()`. -/
inductive FailPoint where
  | launchFail
  | gotoFail
  | formFail
  | deadline
  | noFail
deriving Repr, DecidableEq

/-- Bookkeeping for the browser resource of one `_scrape_slots` run. -/
structure ResourceTrace where
  acquired : Bool
  stillOpen : Bool
  releases : Nat
deriving Repr, DecidableEq

/-- `await browser.close()` (line 109): one release. -/
def browserClose (r : ResourceTrace) : ResourceTrace :=
  { r with stillOpen := false, releases := r.releases + 1 }

/-- Exit of the `async with async_playwright()` scope (line 40), run on
every path that entered it: stopping Playwright closes a still-open
launched browser, and is a no-op on one already closed. -/
def scopeExit (r : ResourceTrace) : ResourceTrace :=
  if r.stillOpen then browserClose r else r

/-- The browser-resource history of one `_scrape_slots` run with the
given failure point: no acquisition if the launch raises; explicit
close only on the no-failure path; the scope exit always runs. -/
def scrapeResources : FailPoint → ResourceTrace
  | FailPoint.launchFail => scopeExit { acquired := false, stillOpen := false, releases := 0 }
  | FailPoint.gotoFail => scopeExit { acquired := true, stillOpen := true, releases := 0 }
  | FailPoint.formFail => scopeExit { acquired := true, stillOpen := true, releases := 0 }
  | FailPoint.deadline => scopeExit { acquired := true, stillOpen := true, releases := 0 }
  | FailPoint.noFail =>
      scopeExit (browserClose { acquired := true, stillOpen := true, releases := 0 })

/-! ### Concrete page models used as test drivers -/

/-- A page whose widget displays a concrete month, day and year.  The
`displayedYear` field exists in the page but `get_current_day_info`
never queries it: its `selectedDay` observation below exposes only the
day name, day number, month and slots (lines 234-242). -/
structure YearPage where
  displayedYear : Nat
  month : String
  dayNumber : String
  dayName : String
  slots : List String
deriving Repr, DecidableEq

/-- Driver over `YearPage` for `get_current_day_info`: the selected-day
reads return the displayed month, day number, day name and slots - and
nothing about the displayed year, which the source never reads. -/
def yearDriver : PageDriver YearPage Unit where
  dayButtons := fun _ => []
  isEnabled := fun _ _ => true
  clickDay := fun s _ => s
  nextWeekBtn := fun _ => none
  prevWeekBtn := fun _ => none
  monthYearEl := fun _ => false
  nextMonthBtn := fun _ => none
  clickNextWeek := fun s => s
  clickPrevWeek := fun s => s
  clickMonthYear := fun s => s
  clickNextMonth := fun s => s
  selectedDay := fun p =>
    some { dayName := p.dayName, dayNumber := p.dayNumber, month := p.month, slots := p.slots }
  wait := fun s => s

/-- A stuck widget: two day buttons, both disabled forever, while the
next-week arrow is present and enabled forever (stale enabled flag /
cyclic calendar).  State is irrelevant (`Unit`). -/
def azDriver : PageDriver Unit Unit where
  dayButtons := fun _ => [(), ()]
  isEnabled := fun _ _ => false
  clickDay := fun s _ => s
  nextWeekBtn := fun _ => some true
  prevWeekBtn := fun _ => some false
  monthYearEl := fun _ => false
  nextMonthBtn := fun _ => none
  clickNextWeek := fun s => s
  clickPrevWeek := fun s => s
  clickMonthYear := fun s => s
  clickNextMonth := fun s => s
  selectedDay := fun _ => none
  wait := fun s => s

/-- A dead widget: two day buttons, both disabled forever, and no
navigation control works (next-week arrow present but disabled,
previous-week arrow absent, no month/year element). -/
def zdDriver : PageDriver Unit Unit where
  dayButtons := fun _ => [(), ()]
  isEnabled := fun _ _ => false
  clickDay := fun s _ => s
  nextWeekBtn := fun _ => some false
  prevWeekBtn := fun _ => none
  monthYearEl := fun _ => false
  nextMonthBtn := fun _ => none
  clickNextWeek := fun s => s
  clickPrevWeek := fun s => s
  clickMonthYear := fun s => s
  clickNextMonth := fun s => s
  selectedDay := fun _ => none
  wait := fun s => s

/-- A widget whose next-week arrow is present but disabled, whose
previous-week arrow is present and ENABLED, and whose month/year picker
is present with an enabled next-month arrow.  The state counts clicks. -/
def pDriver : PageDriver Nat Unit where
  dayButtons := fun _ => []
  isEnabled := fun _ _ => false
  clickDay := fun s _ => s
  nextWeekBtn := fun _ => some false
  prevWeekBtn := fun _ => some true
  monthYearEl := fun _ => true
  nextMonthBtn := fun _ => some true
  clickNextWeek := fun s => s + 1
  clickPrevWeek := fun s => s + 1
  clickMonthYear := fun s => s + 1
  clickNextMonth := fun s => s + 1
  selectedDay := fun _ => none
  wait := fun s => s

/-- A cooperative widget: every week shows exactly one enabled day whose
date is distinct per week (day number = week index + 1) with one slot,
and the next-week arrow always works.  State = (week index, selected
flag); clicking the day selects it, advancing resets the selection. -/
def wkDriver : PageDriver (Nat × Nat) Nat where
  dayButtons := fun _ => [0]
  isEnabled := fun _ _ => true
  clickDay := fun s _ => (s.1, 0)
  nextWeekBtn := fun _ => some true
  prevWeekBtn := fun _ => some false
  monthYearEl := fun _ => false
  nextMonthBtn := fun _ => none
  clickNextWeek := fun s => (s.1 + 1, 9)
  clickPrevWeek := fun s => s
  clickMonthYear := fun s => s
  clickNextMonth := fun s => s
  selectedDay := fun s =>
    if s.2 = 0 then
      some { dayName := "Mon", dayNumber := toString (s.1 + 1), month := "Oct", slots := ["9:00"] }
    else none
  wait := fun s => s

/-- The scenario-A widget: one week with three enabled days carrying
slot lists 9:00/10:00, 11:00 and the empty list, and no working
navigation in any direction.  State = selected button (9 = none). -/
def scDriver : PageDriver Nat Nat where
  dayButtons := fun _ => [0, 1, 2]
  isEnabled := fun _ _ => true
  clickDay := fun _ b => b
  nextWeekBtn := fun _ => some false
  prevWeekBtn := fun _ => some false
  monthYearEl := fun _ => false
  nextMonthBtn := fun _ => none
  clickNextWeek := fun s => s
  clickPrevWeek := fun s => s
  clickMonthYear := fun s => s
  clickNextMonth := fun s => s
  selectedDay := fun s =>
    if s = 0 then some { dayName := "Mon", dayNumber := "6", month := "Oct", slots := ["9:00", "10:00"] }
    else if s = 1 then some { dayName := "Tue", dayNumber := "7", month := "Oct", slots := ["11:00"] }
    else if s = 2 then some { dayName := "Wed", dayNumber := "8", month := "Oct", slots := [] }
    else none
  wait := fun s => s

/-- Sample day used in the dedup statements. -/
def dOct7 : DayInfo := { dayName := "Tue", date := "Oct 7, 2025", slots := ["9:00"] }

/-- A different candidate carrying the same date as `dOct7` but another
slot list. -/
def dOct7' : DayInfo := { dayName := "Tue", date := "Oct 7, 2025", slots := ["11:00", "12:00"] }

/-- The aggregate produced by running the engine on `scDriver`
(scenario A): two entries, the zero-slot day excluded. -/
def scAgg : Aggregate :=
  [("Oct 6, 2025", { dayName := "Mon", date := "Oct 6, 2025", slots := ["9:00", "10:00"] }),
   ("Oct 7, 2025", { dayName := "Tue", date := "Oct 7, 2025", slots := ["11:00"] })]

/-! ## Helper lemmas -/

theorem hasDate_append_self (agg : Aggregate) (k : String) (di : DayInfo) :
    hasDate (agg ++ [(k, di)]) k = true := by
  simp [hasDate, List.any_append]

theorem navigateToNextWeek_of_ne (d : PageDriver σ β) (s : σ)
    (hn : d.nextWeekBtn s ≠ some true) :
    navigateToNextWeek d s =
      (if d.monthYearEl s then
        match d.nextMonthBtn (d.wait (d.clickMonthYear s)) with
        | some true =>
            (true, d.wait (d.clickNextMonth (d.wait (d.clickMonthYear s))),
             [Act.clickMonthYear, Act.settle, Act.clickNextMonth, Act.settle])
        | _ => (false, d.wait (d.clickMonthYear s), [Act.clickMonthYear, Act.settle])
      else (false, s, [])) := by
  cases hx : d.nextWeekBtn s with
  | none => simp [navigateToNextWeek, hx]
  | some b =>
      cases b with
      | false => simp [navigateToNextWeek, hx]
      | true => exact absurd hx hn

theorem visitDays_no_empty (d : PageDriver σ β) (y : Nat) :
    ∀ (bs : List β) (s : σ) (di : DayInfo), di ∈ (visitDays d y bs s).1 → di.slots ≠ [] := by
  intro bs
  induction bs with
  | nil => intro s di h; simp [visitDays] at h
  | cons b rest ih =>
      intro s di h
      simp only [visitDays] at h
      cases hinfo : getCurrentDayInfo d (d.wait (d.clickDay s b)) y with
      | none =>
          rw [hinfo] at h
          exact ih _ di h
      | some info =>
          rw [hinfo] at h
          dsimp only at h
          by_cases he : info.slots.isEmpty = true
          · rw [if_pos he] at h
            exact ih _ di h
          · rw [if_neg he] at h
            rcases List.mem_cons.mp h with rfl | hmem
            · intro hnil
              apply he
              rw [hnil]
              rfl
            · exact ih _ di hmem

theorem weekSlots_no_empty (d : PageDriver σ β) (y : Nat) :
    ∀ (fuel : Nat) (s : σ) (ws : List DayInfo) (di : DayInfo),
      (getCurrentWeekSlots d y fuel s).1 = some ws → di ∈ ws → di.slots ≠ [] := by
  intro fuel
  induction fuel with
  | zero => intro s ws di h; simp [getCurrentWeekSlots] at h
  | succ n ih =>
      intro s ws di h hm
      simp only [getCurrentWeekSlots] at h
      by_cases hb : ((d.dayButtons s).filter (d.isEnabled s)).isEmpty = true
      · rw [if_pos hb] at h
        cases hz : zeroPath d (d.wait s)
            ((d.dayButtons s).filter (d.isEnabled (d.wait s))).isEmpty with
        | retryFrom s' tr =>
            rw [hz] at h
            exact ih s' ws di h hm
        | giveUp s' tr =>
            rw [hz] at h
            simp only at h
            cases Option.some.inj h
            simp at hm
      · rw [if_neg hb] at h
        simp only at h
        cases Option.some.inj h
        exact visitDays_no_empty d y _ s di hm

theorem mergeDay_no_empty (agg : Aggregate) (di : DayInfo)
    (ha : ∀ p ∈ agg, p.2.slots ≠ []) (hd : di.slots ≠ []) :
    ∀ p ∈ mergeDay agg di, p.2.slots ≠ [] := by
  intro p hp
  unfold mergeDay at hp
  by_cases h : hasDate agg di.date = true
  · rw [if_pos h] at hp
    exact ha p hp
  · rw [if_neg h] at hp
    rcases List.mem_append.mp hp with h1 | h2
    · exact ha p h1
    · obtain rfl := List.mem_singleton.mp h2
      exact hd

theorem foldl_mergeDay_no_empty :
    ∀ (ws : List DayInfo) (agg : Aggregate),
      (∀ p ∈ agg, p.2.slots ≠ []) → (∀ di ∈ ws, di.slots ≠ []) →
      ∀ p ∈ ws.foldl mergeDay agg, p.2.slots ≠ [] := by
  intro ws
  induction ws with
  | nil => intro agg ha _ p hp; simpa using ha p (by simpa using hp)
  | cons w rest ih =>
      intro agg ha hw p hp
      simp only [List.foldl_cons] at hp
      exact ih (mergeDay agg w)
        (mergeDay_no_empty agg w ha (hw w (by simp)))
        (fun di hdi => hw di (by simp [hdi])) p hp

theorem slotsLoop_no_empty (d : PageDriver σ β) (y fuel : Nat) :
    ∀ (w : Nat) (agg : Aggregate) (s : σ) (agg' : Aggregate),
      (∀ p ∈ agg, p.2.slots ≠ []) →
      (slotsLoop d y fuel w agg s).1 = some agg' →
      ∀ p ∈ agg', p.2.slots ≠ [] := by
  intro w
  induction w with
  | zero =>
      intro agg s agg' ha h
      simp only [slotsLoop] at h
      cases Option.some.inj h
      exact ha
  | succ n ih =>
      intro agg s agg' ha h
      simp only [slotsLoop] at h
      cases hc : (getCurrentWeekSlots d y fuel s).1 with
      | none => rw [hc] at h; simp at h
      | some ws =>
          rw [hc] at h
          simp only at h
          have hmerge : ∀ p ∈ ws.foldl mergeDay agg, p.2.slots ≠ [] :=
            foldl_mergeDay_no_empty ws agg ha
              (fun di hdi => weekSlots_no_empty d y fuel s ws di hc hdi)
          by_cases hadv : (advanceStep d (getCurrentWeekSlots d y fuel s).2.1).1 = true
          · rw [if_pos hadv] at h
            exact ih _ _ agg' hmerge h
          · rw [if_neg hadv] at h
            cases Option.some.inj h
            exact hmerge

theorem flatten_go_length (l : Aggregate) :
    ∀ acc : List SlotTriple,
      (l.foldl
        (fun a p => a ++ p.2.slots.map fun t => { date := p.1, time := t, gmt := gmtLabel })
        acc).length
        = acc.length + (l.map fun p => p.2.slots.length).sum := by
  induction l with
  | nil => intro acc; simp
  | cons hd tl ih =>
      intro acc
      simp only [List.foldl_cons, List.map_cons, List.sum_cons]
      rw [ih]
      simp [List.length_append]
      omega

theorem flatten_go_gmt (l : Aggregate) :
    ∀ acc : List SlotTriple,
      (acc.all fun tr => tr.gmt == gmtLabel) = true →
      ((l.foldl
        (fun a p => a ++ p.2.slots.map fun t => { date := p.1, time := t, gmt := gmtLabel })
        acc).all fun tr => tr.gmt == gmtLabel) = true := by
  induction l with
  | nil => intro acc hacc; simpa using hacc
  | cons hd tl ih =>
      intro acc hacc
      simp only [List.foldl_cons]
      apply ih
      simp [List.all_append, hacc, List.all_map, Function.comp]

theorem azWeek_step (n : Nat) :
    getCurrentWeekSlots azDriver 2025 (n + 1) () =
      ((getCurrentWeekSlots azDriver 2025 n ()).1, (),
       [Act.enumDays, Act.settle, Act.enumDays, Act.clickNextWeek, Act.settle, Act.settle]
         ++ (getCurrentWeekSlots azDriver 2025 n ()).2.2) := rfl

/-! ## Claim theorems -/

/-- Claim C1, counterexample: run the engine on a widget whose every
week shows one fresh day with one slot, with `days_to_check = 1`.  The
claimed early stop would end the run at one aggregated day with no
further advance; instead the code performs three week advances and
aggregates three days. -/
theorem c1_counterexample :
    ((getAvailableSlots wkDriver 2025 5 1 (0, 9)).1.map List.length = some 3)
  ∧ Act.clickNextWeek ∈ (getAvailableSlots wkDriver 2025 5 1 (0, 9)).2.2
  ∧ countNav (getAvailableSlots wkDriver 2025 5 1 (0, 9)).2.2 = 3 :=
  ⟨rfl, by decide, rfl⟩

/-- Claim C1, amended: the loop of `get_available_slots` never consults
`days_to_check` - the outcome is identical for every target - and it
keeps advancing until navigation fails in both directions or the
three-week ceiling is reached (here: three advances, three aggregated
days, although the target was 1). -/
theorem c1_amended :
    (∀ (σ β : Type) (d : PageDriver σ β) (y fuel t t' : Nat) (s : σ),
        getAvailableSlots d y fuel t s = getAvailableSlots d y fuel t' s)
  ∧ countNav (getAvailableSlots wkDriver 2025 5 1 (0, 9)).2.2 = 3
  ∧ ((getAvailableSlots wkDriver 2025 5 1 (0, 9)).1.map List.length = some 3) :=
  ⟨fun _ _ _ _ _ _ _ _ => rfl, rfl, rfl⟩

/-- Claim C2, counterexample: a run cut off by the 45 s deadline after
having accumulated one day returns the empty dict, not that partial
aggregate. -/
theorem c2_counterexample :
    fillFormAndGetSlots (InnerOutcome.timedOut [("Oct 7, 2025", dOct7)]) = []
  ∧ ([("Oct 7, 2025", dOct7)] : Aggregate) ≠ [] :=
  ⟨rfl, by decide⟩

/-- Claim C2, amended: if the overall 45 s deadline elapses,
`fill_form_and_get_slots` catches the `asyncio.TimeoutError` and returns
the EMPTY dict - whatever had been accumulated inside the cancelled task
is discarded - and the timeout is never raised to the caller (the
handler is total); a completed run passes its slots through. -/
theorem c2_amended :
    (∀ lost : Aggregate, fillFormAndGetSlots (InnerOutcome.timedOut lost) = [])
  ∧ (∀ agg : Aggregate, fillFormAndGetSlots (InnerOutcome.done agg) = agg)
  ∧ fillFormAndGetSlots InnerOutcome.failed = [] :=
  ⟨fun _ => rfl, fun _ => rfl, rfl⟩

/-- Claim C3, counterexample: against a driver that reports zero enabled
day buttons forever but whose next-week arrow is enabled,
`get_current_week_slots` itself performs a week-navigation click -
contradicting the claim that it never triggers navigation and returns an
empty sequence after one retry. -/
theorem c3_counterexample :
    Act.clickNextWeek ∈ (getCurrentWeekSlots azDriver 2025 3 ()).2.2 := by
  decide

/-- Claim C3, amended: when zero enabled day buttons are found,
`get_current_week_slots` waits once and re-enumerates; if still zero and
no navigation control works it returns an empty sequence after exactly
that one retry (trace: enumerate, settle, re-enumerate); but if a
navigation control works it clicks it itself and recurses - against a
stuck widget with an enabled next-week arrow one fuel step is consumed
per navigation click and the recursion never returns. -/
theorem c3_amended :
    getCurrentWeekSlots zdDriver 2025 5 () =
      (some [], (), [Act.enumDays, Act.settle, Act.enumDays])
  ∧ (getCurrentWeekSlots azDriver 2025 1 ()).1 = none
  ∧ (getCurrentWeekSlots azDriver 2025 1 ()).2.2 =
      [Act.enumDays, Act.settle, Act.enumDays, Act.clickNextWeek, Act.settle, Act.settle] :=
  ⟨rfl, rfl, rfl⟩

/-- Claim C4, counterexample: a single call to `get_current_week_slots`
against the stuck always-advanceable widget performs ten week-advance
clicks - far above the ceiling of 3 - and still does not return. -/
theorem c4_counterexample :
    3 < countNav (getCurrentWeekSlots azDriver 2025 10 ()).2.2
  ∧ (getCurrentWeekSlots azDriver 2025 10 ()).1 = none :=
  ⟨by decide, rfl⟩

/-- Claim C4, amended: only the explicit loop of `get_available_slots`
is bounded by the three-week ceiling (a cooperative widget gets exactly
three advances); `get_current_week_slots` additionally triggers its own
navigation recursively whenever zero enabled days persist, so against an
always-advanceable zero-day widget the number of advance clicks grows
with the recursion depth (one per fuel step) and the collection never
returns - termination is not guaranteed by the ceiling. -/
theorem c4_amended :
    (∀ fuel : Nat,
        (getCurrentWeekSlots azDriver 2025 fuel ()).1 = none
      ∧ countNav (getCurrentWeekSlots azDriver 2025 fuel ()).2.2 = fuel)
  ∧ countNav (getAvailableSlots wkDriver 2025 5 9 (0, 9)).2.2 = 3 := by
  refine ⟨fun fuel => ?_, rfl⟩
  induction fuel with
  | zero => exact ⟨rfl, rfl⟩
  | succ n ih =>
      rw [azWeek_step]
      refine ⟨ih.1, ?_⟩
      show countNav (_ ++ _) = n + 1
      rw [countNav, List.filter_append, List.length_append]
      have h2 := ih.2
      rw [countNav] at h2
      rw [h2]
      have h1 : (List.filter isNavClick
          [Act.enumDays, Act.settle, Act.enumDays, Act.clickNextWeek, Act.settle,
           Act.settle]).length = 1 := rfl
      rw [h1]
      omega

/-- Claim C5, counterexample: with the next-week arrow disabled, the
previous-week arrow ENABLED, and the month/year picker available, an
advance attempt clicks the month picker and its next-month arrow and
never touches the previous-week arrow - the opposite of the claimed
next/prev/month order. -/
theorem c5_counterexample :
    pDriver.prevWeekBtn 0 = some true
  ∧ Act.clickPrevWeek ∉ (advanceStep pDriver 0).2.2
  ∧ Act.clickNextMonth ∈ (advanceStep pDriver 0).2.2 :=
  ⟨rfl, by decide, by decide⟩

/-- Claim C5, amended: each advance attempt tries the next-week arrow
first; if that is absent or disabled it opens the month/year picker and
tries the next-month arrow; the previous-week arrow is tried only after
BOTH of those fail; only when all three fail does the attempt report
failure (navigation exhausted). -/
theorem c5_amended (d : PageDriver σ β) (s : σ) :
    (d.nextWeekBtn s = some true →
      advanceStep d s =
        (true, d.wait (d.wait (d.clickNextWeek s)),
         [Act.clickNextWeek, Act.settle, Act.settle]))
  ∧ (d.nextWeekBtn s ≠ some true → d.monthYearEl s = true →
      d.nextMonthBtn (d.wait (d.clickMonthYear s)) = some true →
      advanceStep d s =
        (true, d.wait (d.wait (d.clickNextMonth (d.wait (d.clickMonthYear s)))),
         [Act.clickMonthYear, Act.settle, Act.clickNextMonth, Act.settle, Act.settle]))
  ∧ (d.nextWeekBtn s ≠ some true → d.monthYearEl s = false →
      d.prevWeekBtn s = some true →
      advanceStep d s =
        (true, d.wait (d.clickPrevWeek s), [Act.clickPrevWeek, Act.settle]))
  ∧ (d.nextWeekBtn s ≠ some true → d.monthYearEl s = true →
      d.nextMonthBtn (d.wait (d.clickMonthYear s)) ≠ some true →
      d.prevWeekBtn (d.wait (d.clickMonthYear s)) = some true →
      advanceStep d s =
        (true, d.wait (d.clickPrevWeek (d.wait (d.clickMonthYear s))),
         [Act.clickMonthYear, Act.settle, Act.clickPrevWeek, Act.settle]))
  ∧ (d.nextWeekBtn s ≠ some true → d.monthYearEl s = false →
      d.prevWeekBtn s ≠ some true → (advanceStep d s).1 = false)
  ∧ (d.nextWeekBtn s ≠ some true → d.monthYearEl s = true →
      d.nextMonthBtn (d.wait (d.clickMonthYear s)) ≠ some true →
      d.prevWeekBtn (d.wait (d.clickMonthYear s)) ≠ some true →
      (advanceStep d s).1 = false) := by
  refine ⟨?_, ?_, ?_, ?_, ?_, ?_⟩
  · intro h
    have hnav : navigateToNextWeek d s =
        (true, d.wait (d.clickNextWeek s), [Act.clickNextWeek, Act.settle]) := by
      unfold navigateToNextWeek
      rw [h]
    simp [advanceStep, hnav]
  · intro hn hm hnm
    have hnav : navigateToNextWeek d s =
        (true, d.wait (d.clickNextMonth (d.wait (d.clickMonthYear s))),
         [Act.clickMonthYear, Act.settle, Act.clickNextMonth, Act.settle]) := by
      rw [navigateToNextWeek_of_ne d s hn, if_pos hm, hnm]
    simp [advanceStep, hnav]
  · intro hn hm hp
    have hnav : navigateToNextWeek d s = (false, s, []) := by
      rw [navigateToNextWeek_of_ne d s hn, if_neg (by simp [hm])]
    simp [advanceStep, hnav, hp]
  · intro hn hm hnm hp
    have hnav : navigateToNextWeek d s =
        (false, d.wait (d.clickMonthYear s), [Act.clickMonthYear, Act.settle]) := by
      rw [navigateToNextWeek_of_ne d s hn, if_pos hm]
      cases hx : d.nextMonthBtn (d.wait (d.clickMonthYear s)) with
      | none => rfl
      | some b =>
          cases b with
          | false => rfl
          | true => exact absurd hx hnm
    simp [advanceStep, hnav, hp]
  · intro hn hm hp
    have hnav : navigateToNextWeek d s = (false, s, []) := by
      rw [navigateToNextWeek_of_ne d s hn, if_neg (by simp [hm])]
    cases hx : d.prevWeekBtn s with
    | none => simp [advanceStep, hnav, hx]
    | some b =>
        cases b with
        | false => simp [advanceStep, hnav, hx]
        | true => exact absurd hx hp
  · intro hn hm hnm hp
    have hnav : navigateToNextWeek d s =
        (false, d.wait (d.clickMonthYear s), [Act.clickMonthYear, Act.settle]) := by
      rw [navigateToNextWeek_of_ne d s hn, if_pos hm]
      cases hx : d.nextMonthBtn (d.wait (d.clickMonthYear s)) with
      | none => rfl
      | some b =>
          cases b with
          | false => rfl
          | true => exact absurd hx hnm
    cases hy : d.prevWeekBtn (d.wait (d.clickMonthYear s)) with
    | none => simp [advanceStep, hnav, hy]
    | some b =>
        cases b with
        | false => simp [advanceStep, hnav, hy]
        | true => exact absurd hy hp

/-- Claim C5, witness: the amended order at the concrete driver whose
next arrow is disabled, previous arrow enabled, and month picker
working: the month path is taken. -/
theorem c5_witness :
    advanceStep pDriver 0 =
      (true,
       pDriver.wait (pDriver.wait (pDriver.clickNextMonth (pDriver.wait (pDriver.clickMonthYear 0)))),
       [Act.clickMonthYear, Act.settle, Act.clickNextMonth, Act.settle, Act.settle]) :=
  (c5_amended pDriver 0).2.1 (by decide) rfl rfl

/-- Claim C6: on every exit path of `_scrape_slots` - success, an
exception before or after the browser launch, or cancellation by the
deadline - a launched browser is released exactly once (explicit
`browser.close()` on the success path, the Playwright scope exit
otherwise), and never twice; if the launch itself fails nothing is
acquired and nothing is released. -/
theorem c6_release_exactly_once :
    ∀ fp : FailPoint,
      (scrapeResources fp).releases = (if (scrapeResources fp).acquired then 1 else 0)
    ∧ (scrapeResources fp).stillOpen = false := by
  intro fp
  cases fp <;> exact ⟨rfl, rfl⟩

/-- Claim C7: merging a day whose date key is already present is a
no-op - the existing entry and its slot list are untouched - and hence
merging the same candidate twice equals merging it once. -/
theorem c7_merge_idempotent (agg : Aggregate) (di : DayInfo) :
    (hasDate agg di.date = true → mergeDay agg di = agg)
  ∧ mergeDay (mergeDay agg di) di = mergeDay agg di := by
  constructor
  · intro h
    unfold mergeDay
    rw [if_pos h]
  · by_cases h : hasDate agg di.date = true
    · simp [mergeDay, h]
    · unfold mergeDay
      rw [if_neg h, if_pos (hasDate_append_self agg di.date di)]

/-- Claim C7, witness: merging a candidate with the date of an existing
entry (but different slots) leaves the aggregate - including the stored
slot list - unchanged, and a duplicate merge of the same candidate is
absorbed. -/
theorem c7_witness :
    mergeDay [("Oct 7, 2025", dOct7)] dOct7' = [("Oct 7, 2025", dOct7)]
  ∧ mergeDay (mergeDay [] dOct7) dOct7 = mergeDay [] dOct7 :=
  ⟨(c7_merge_idempotent [("Oct 7, 2025", dOct7)] dOct7').1 (by decide),
   (c7_merge_idempotent [] dOct7).2⟩

/-- Claim C8: whenever the engine returns an aggregate, every stored
entry has a non-empty slot list - a visited day is promoted only if it
has slots (the check at line 388), and merging preserves this. -/
theorem c8_no_empty_slots (d : PageDriver σ β) (y fuel t : Nat) (s : σ) (agg : Aggregate)
    (h : (getAvailableSlots d y fuel t s).1 = some agg) :
    ∀ p ∈ agg, p.2.slots ≠ [] :=
  slotsLoop_no_empty d y fuel 3 [] s agg (by simp) h

/-- Claim C8, witness: the scenario-A run returns the two-entry
aggregate, and its first entry indeed has non-empty slots. -/
theorem c8_witness :
    (("Oct 6, 2025",
      ({ dayName := "Mon", date := "Oct 6, 2025", slots := ["9:00", "10:00"] } : DayInfo))).2.slots
      ≠ [] :=
  c8_no_empty_slots scDriver 2025 3 9 9 scAgg rfl
    ("Oct 6, 2025", { dayName := "Mon", date := "Oct 6, 2025", slots := ["9:00", "10:00"] })
    (by decide)

/-- Claim C9: the flattened response holds exactly one
date/time/timezone triple per slot of every stored day (its length is
the sum of the slot-list lengths), every triple carries the fixed
hardcoded timezone label, and scenario A (slot lists 9:00/10:00, 11:00,
empty in one week) yields 2 aggregate entries and 3 triples. -/
theorem c9_flatten_triples :
    (∀ slots : Aggregate,
        (flattenSlots slots).length = (slots.map fun p => p.2.slots.length).sum
      ∧ ((flattenSlots slots).all fun tr => tr.gmt == gmtLabel) = true)
  ∧ (getAvailableSlots scDriver 2025 3 9 9).1 = some scAgg
  ∧ scAgg.length = 2
  ∧ (flattenSlots scAgg).length = 3 := by
  refine ⟨fun slots => ⟨?_, ?_⟩, rfl, rfl, rfl⟩
  · simpa [flattenSlots] using flatten_go_length slots []
  · simpa [flattenSlots] using flatten_go_gmt slots [] rfl

/-- Claim C10: `get_current_day_info` keys every visited day as
month, day number and the CURRENT year from the system clock
(`datetime.now().year`): the result is a function of the page reads and
`nowYear` only, unchanged under any displayed calendar year - a page
displaying 2026 is keyed under 2025 when scraped in 2025. -/
theorem c10_date_key_uses_clock_year :
    (∀ (p : YearPage) (y : Nat),
        getCurrentDayInfo yearDriver p y =
          some { dayName := p.dayName,
                 date := p.month ++ " " ++ p.dayNumber ++ ", " ++ toString y,
                 slots := p.slots })
  ∧ (∀ (p : YearPage) (n y : Nat),
        getCurrentDayInfo yearDriver { p with displayedYear := n } y =
          getCurrentDayInfo yearDriver p y)
  ∧ (getCurrentDayInfo yearDriver
        { displayedYear := 2026, month := "Oct", dayNumber := "28",
          dayName := "Tue", slots := ["9:00"] } 2025).map DayInfo.date =
      some "Oct 28, 2025" :=
  ⟨fun _ _ => rfl, fun _ _ _ => rfl, rfl⟩

end ChiliPiper
